import Mathlib

/-!
Verification of the CLI-backed provider adapters of the `ai-workflows`
repository: `claude-cli-provider.js`, `codex-provider.js` and
`claude-code-provider.js`.  Each provider exposes a `callApi` operation
that turns the outcome of an external process (or of an HTTP client call)
into a uniform success/error result record.  The JavaScript sources are
shallowly embedded here: the nondeterministic outcome of the external
world (process exit, spawn failure, HTTP response, thrown client error)
is an explicit argument, and `callApi` is the pure function from that
outcome to the result record the harness receives.
-/

/-- The `tokenUsage` record returned on success:
`{ total, prompt, completion }`.  Token counts are natural numbers. -/
structure TokenUsage where
  total : Nat
  prompt : Nat
  completion : Nat
deriving Repr, DecidableEq

/-- The result record a provider's `callApi` resolves to.  In JavaScript
it is a plain object that carries either an `output` field (with a
`tokenUsage` record) or an `error` field; each field is modelled as an
`Option` so that "field absent" is representable and the exclusivity is
a theorem, not a typing artifact. -/
structure ProviderResponse where
  output : Option String
  tokenUsage : Option TokenUsage
  error : Option String
deriving Repr, DecidableEq

/-- Outcome of a spawned child process, as observed by the adapter:
either the `close` event fired with an exit code after the accumulated
stdout/stderr text was collected, or the `error` event fired because the
process could not be started (binary missing, permission denied, ...). -/
inductive ProcOutcome where
  | exited (code : Int) (stdout : String) (stderr : String)
  | spawnError (message : String)
deriving Repr, DecidableEq

/-- A spawn effect: the command, its argument list, and the data written
to the child's stdin (`none` when stdin is inherited instead of piped). -/
structure SpawnCall where
  cmd : String
  args : List String
  stdinData : Option String
deriving Repr, DecidableEq

/-- Model of JavaScript `String.prototype.trim()`: remove all leading
and all trailing whitespace characters.  (Defined on the character list
so that it is kernel-executable on concrete inputs.) -/
def jsTrim (s : String) : String :=
  String.mk (((s.data.dropWhile Char.isWhitespace).reverse.dropWhile
    Char.isWhitespace).reverse)

/-- Substring test on the underlying character list: does `t` occur as a
contiguous run inside `s`?  Used to state "the message contains ..." . -/
def listStartsWith : List Char → List Char → Bool
  | _, [] => true
  | [], _ :: _ => false
  | a :: as, b :: bs => a = b && listStartsWith as bs

/-- Auxiliary scan for `containsStr`: try every suffix of `s`. -/
def containsAux : List Char → List Char → Bool
  | [], t => t.isEmpty
  | a :: as, t => listStartsWith (a :: as) t || containsAux as t

/-- `containsStr s t` holds when `t` occurs as a contiguous substring of
`s`. -/
def containsStr (s t : String) : Bool :=
  containsAux s.data t.data

namespace ClaudeCliProvider

/-- `ClaudeCliProvider.executeClaude` (`claude-cli-provider.js`, lines
46–78): spawns `claude -p <prompt>` with stdin inherited, accumulates
stdout and stderr, and settles the promise from the process outcome.
Non-zero exit rejects with the exit code and the stderr text, the empty
stderr being replaced by the placeholder `(no stderr output)`; exit 0
resolves with the trimmed stdout; a spawn error rejects with the
underlying error message.  The emitted spawn effect is returned
alongside the promise outcome. -/
def executeClaude (prompt : String) (o : ProcOutcome) :
    List SpawnCall × Except String String :=
  ([⟨"claude", ["-p", prompt], none⟩],
    match o with
    | .exited code stdout stderr =>
        if code ≠ 0 then
          .error ("Claude exited with code " ++ toString code ++ ": " ++
            (if stderr = "" then "(no stderr output)" else stderr))
        else
          .ok (jsTrim stdout)
    | .spawnError message =>
        .error ("Failed to spawn claude: " ++ message))

/-- `ClaudeCliProvider.callApi` (`claude-cli-provider.js`, lines 26–44):
awaits `executeClaude(prompt)`; on resolution returns
`{ output, tokenUsage: {total: 0, prompt: 0, completion: 0} }`, on
rejection returns `{ error: "Claude CLI error: " + message }`.  The
`context` and `options` parameters are received but never read. -/
def callApi {α β : Type} (prompt : String) (_context : α) (_options : β)
    (o : ProcOutcome) : List SpawnCall × ProviderResponse :=
  match executeClaude prompt o with
  | (calls, .ok result) =>
      (calls, { output := some result,
                tokenUsage := some ⟨0, 0, 0⟩,
                error := none })
  | (calls, .error message) =>
      (calls, { output := none,
                tokenUsage := none,
                error := some ("Claude CLI error: " ++ message) })

end ClaudeCliProvider

namespace CodexProvider

/-- `CodexProvider.executeCodex` (`codex-provider.js`, lines 44–79):
spawns `codex exec -` with the prompt written to the piped stdin,
accumulates stdout and stderr, and settles the promise from the process
outcome.  Non-zero exit rejects with the exit code and the stderr text
(no placeholder for an empty stderr); exit 0 resolves with the trimmed
stdout; a spawn error rejects with the underlying error message. -/
def executeCodex (prompt : String) (o : ProcOutcome) :
    List SpawnCall × Except String String :=
  ([⟨"codex", ["exec", "-"], some prompt⟩],
    match o with
    | .exited code stdout stderr =>
        if code ≠ 0 then
          .error ("Codex exited with code " ++ toString code ++ ": " ++ stderr)
        else
          .ok (jsTrim stdout)
    | .spawnError message =>
        .error ("Failed to spawn codex: " ++ message))

/-- `CodexProvider.callApi` (`codex-provider.js`, lines 24–42): awaits
`executeCodex(prompt)`; on resolution returns
`{ output, tokenUsage: {total: 0, prompt: 0, completion: 0} }`, on
rejection returns `{ error: "Codex CLI error: " + message }`.  The
`context` and `options` parameters are received but never read. -/
def callApi {α β : Type} (prompt : String) (_context : α) (_options : β)
    (o : ProcOutcome) : List SpawnCall × ProviderResponse :=
  match executeCodex prompt o with
  | (calls, .ok result) =>
      (calls, { output := some result,
                tokenUsage := some ⟨0, 0, 0⟩,
                error := none })
  | (calls, .error message) =>
      (calls, { output := none,
                tokenUsage := none,
                error := some ("Codex CLI error: " ++ message) })

end CodexProvider

/-- A block of the Anthropic messages-API response body: a text block
(`type === 'text'`, carrying its `text` field) or any other block kind
(`tool_use`, ...), identified by its `type` string. -/
inductive ContentBlock where
  | text (s : String)
  | other (kind : String)
deriving Repr, DecidableEq

/-- `block.type === 'text'`. -/
def ContentBlock.isText : ContentBlock → Bool
  | .text _ => true
  | .other _ => false

/-- `block.text`; non-text blocks have no `text` field (undefined in
JavaScript), modelled as the empty string — it is only read after the
`isText` filter. -/
def ContentBlock.textOf : ContentBlock → String
  | .text s => s
  | .other _ => ""

/-- The `usage` record of a messages-API response. -/
structure ApiUsage where
  input_tokens : Nat
  output_tokens : Nat
deriving Repr, DecidableEq

/-- A successful messages-API response: its content block list and its
usage record. -/
structure MessagesResponse where
  content : List ContentBlock
  usage : ApiUsage
deriving Repr, DecidableEq

/-- Outcome of `this.client.messages.create(...)`: either a response, or
an error thrown by the client library (authentication rejection, quota
rejection, network failure, ...), carrying its message. -/
inductive ApiOutcome where
  | success (r : MessagesResponse)
  | thrown (message : String)
deriving Repr, DecidableEq

namespace ClaudeCodeProvider

/-- Text extraction of `claude-code-provider.js`, lines 50–53:
`response.content.filter(b => b.type === 'text').map(b => b.text).join('\n')`. -/
def extractText (content : List ContentBlock) : String :=
  String.intercalate "\n" ((content.filter ContentBlock.isText).map ContentBlock.textOf)

/-- `ClaudeCodeProvider.callApi` (`claude-code-provider.js`, lines
35–68): awaits the client call; on success returns the extracted text
with `tokenUsage` computed from the response's usage record
(`total = input_tokens + output_tokens`, `prompt = input_tokens`,
`completion = output_tokens`); on a thrown error returns
`{ error: "Claude Code error: " + message }`.  The `context` and
`options` parameters are received but never read; the prompt is consumed
only by the request sent to the client, which the embedding abstracts
into the supplied `ApiOutcome`. -/
def callApi {α β : Type} (_prompt : String) (_context : α) (_options : β)
    (o : ApiOutcome) : ProviderResponse :=
  match o with
  | .success r =>
      { output := some (extractText r.content),
        tokenUsage := some ⟨r.usage.input_tokens + r.usage.output_tokens,
                            r.usage.input_tokens,
                            r.usage.output_tokens⟩,
        error := none }
  | .thrown message =>
      { output := none,
        tokenUsage := none,
        error := some ("Claude Code error: " ++ message) }

end ClaudeCodeProvider

/-- Spec-side description of the answer-text extraction: the `text`
fields of exactly the text-type blocks, in their order in the body,
non-text blocks contributing nothing. -/
def specTextSegments : List ContentBlock → List String
  | [] => []
  | .text s :: rest => s :: specTextSegments rest
  | .other _ :: rest => specTextSegments rest

/-- A response of success shape: `output` and `tokenUsage` present,
`error` absent. -/
def isSuccessShape (r : ProviderResponse) : Bool :=
  r.output.isSome && r.tokenUsage.isSome && r.error.isNone

/-- A response of failure shape: `error` present (carrying the message),
`output` and `tokenUsage` absent. -/
def isFailureShape (r : ProviderResponse) : Bool :=
  r.error.isSome && r.output.isNone && r.tokenUsage.isNone

/-- Does the response's error message contain `t` as a substring?
(`false` when there is no error field.) -/
def errContains (r : ProviderResponse) (t : String) : Bool :=
  match r.error with
  | some m => containsStr m t
  | none => false

theorem listStartsWith_append (t r : List Char) :
    listStartsWith (t ++ r) t = true := by
  induction t with
  | nil => cases r <;> rfl
  | cons a as ih => simp [listStartsWith, ih]

theorem containsAux_of_startsWith (s t : List Char)
    (h : listStartsWith s t = true) : containsAux s t = true := by
  cases s with
  | nil =>
      cases t with
      | nil => rfl
      | cons b bs => simp [listStartsWith] at h
  | cons a as => simp [containsAux, h]

theorem containsAux_append_left (p s t : List Char)
    (h : containsAux s t = true) : containsAux (p ++ s) t = true := by
  induction p with
  | nil => simpa using h
  | cons a as ih => simp [containsAux, ih]

/-- `t` occurs in any string whose character data splits as
`p ++ t.data ++ q`. -/
theorem containsStr_of_data (s t : String) (p q : List Char)
    (h : s.data = p ++ t.data ++ q) : containsStr s t = true := by
  unfold containsStr
  rw [h, List.append_assoc]
  exact containsAux_append_left _ _ _
    (containsAux_of_startsWith _ _ (listStartsWith_append t.data q))

theorem textOf_filter_eq_specTextSegments (l : List ContentBlock) :
    (l.filter ContentBlock.isText).map ContentBlock.textOf = specTextSegments l := by
  induction l with
  | nil => rfl
  | cons b rest ih =>
      cases b <;>
        simp [specTextSegments, ContentBlock.isText, ContentBlock.textOf,
          List.filter_cons, ih]

/-- C1: for every prompt, when the spawned child process exits with
status code zero, `callApi` (of either CLI-backed variant) resolves to a
success result whose `output` equals the accumulated stdout trimmed of
surrounding whitespace, with a zero-valued usage record. -/
theorem C1_exit_zero_success {α β γ δ : Type} (prompt stdout stderr : String)
    (c₁ : α) (o₁ : β) (c₂ : γ) (o₂ : δ) :
    (ClaudeCliProvider.callApi prompt c₁ o₁ (.exited 0 stdout stderr)).2 =
      ⟨some (jsTrim stdout), some ⟨0, 0, 0⟩, none⟩ ∧
    (CodexProvider.callApi prompt c₂ o₂ (.exited 0 stdout stderr)).2 =
      ⟨some (jsTrim stdout), some ⟨0, 0, 0⟩, none⟩ := by
  constructor <;> rfl

/-- C2 counterexample: the Codex variant does not substitute the
`(no stderr output)` placeholder — at exit code 2 with empty stderr its
error message is exactly `Codex CLI error: Codex exited with code 2: `
and contains no placeholder, contradicting "for every adapter variant
... the message instead contains a placeholder". -/
theorem C2_counterexample_codex_no_placeholder :
    (CodexProvider.callApi "p" () () (.exited 2 "" "")).2.error =
      some "Codex CLI error: Codex exited with code 2: " ∧
    errContains (CodexProvider.callApi "p" () () (.exited 2 "" "")).2
      "(no stderr output)" = false := by
  constructor
  · decide
  · decide

/-- C2 (amended): on a non-zero exit code both CLI variants resolve to a
failure result whose message contains the exit code; the Claude CLI
variant's message contains the stderr text with the empty stderr
replaced by the `(no stderr output)` placeholder, while the Codex
variant's message contains the stderr text as-is, with no placeholder
for an empty stderr. -/
theorem C2_nonzero_exit_failure {α β γ δ : Type} (prompt stdout stderr : String)
    (code : Int) (h : code ≠ 0) (c₁ : α) (o₁ : β) (c₂ : γ) (o₂ : δ) :
    isFailureShape (ClaudeCliProvider.callApi prompt c₁ o₁
      (.exited code stdout stderr)).2 = true ∧
    errContains (ClaudeCliProvider.callApi prompt c₁ o₁
      (.exited code stdout stderr)).2 (toString code) = true ∧
    errContains (ClaudeCliProvider.callApi prompt c₁ o₁
      (.exited code stdout stderr)).2
      (if stderr = "" then "(no stderr output)" else stderr) = true ∧
    isFailureShape (CodexProvider.callApi prompt c₂ o₂
      (.exited code stdout stderr)).2 = true ∧
    errContains (CodexProvider.callApi prompt c₂ o₂
      (.exited code stdout stderr)).2 (toString code) = true ∧
    errContains (CodexProvider.callApi prompt c₂ o₂
      (.exited code stdout stderr)).2 stderr = true := by
  have hc : (ClaudeCliProvider.callApi prompt c₁ o₁
      (.exited code stdout stderr)).2 =
      ⟨none, none, some ("Claude CLI error: " ++
        ("Claude exited with code " ++ toString code ++ ": " ++
          (if stderr = "" then "(no stderr output)" else stderr)))⟩ := by
    simp [ClaudeCliProvider.callApi, ClaudeCliProvider.executeClaude, h]
  have hd : (CodexProvider.callApi prompt c₂ o₂
      (.exited code stdout stderr)).2 =
      ⟨none, none, some ("Codex CLI error: " ++
        ("Codex exited with code " ++ toString code ++ ": " ++ stderr))⟩ := by
    simp [CodexProvider.callApi, CodexProvider.executeCodex, h]
  rw [hc, hd]
  refine ⟨rfl, ?_, ?_, rfl, ?_, ?_⟩
  · exact containsStr_of_data _ _
      ("Claude CLI error: ".data ++ "Claude exited with code ".data)
      (": ".data ++ (if stderr = "" then "(no stderr output)" else stderr).data)
      (by simp [String.data_append])
  · exact containsStr_of_data _ _
      ("Claude CLI error: ".data ++ "Claude exited with code ".data ++
        (toString code).data ++ ": ".data) []
      (by simp [String.data_append])
  · exact containsStr_of_data _ _
      ("Codex CLI error: ".data ++ "Codex exited with code ".data)
      (": ".data ++ stderr.data)
      (by simp [String.data_append])
  · exact containsStr_of_data _ _
      ("Codex CLI error: ".data ++ "Codex exited with code ".data ++
        (toString code).data ++ ": ".data) []
      (by simp [String.data_append])

/-- Witness for C2 at prompt `"p"`, exit code 2, stdout `""`,
stderr `"E"`. -/
theorem C2_nonzero_exit_failure_witness :
    ((2 : Int) ≠ 0) ∧
    (isFailureShape (ClaudeCliProvider.callApi "p" () ()
      (.exited 2 "" "E")).2 = true ∧
    errContains (ClaudeCliProvider.callApi "p" () ()
      (.exited 2 "" "E")).2 (toString (2 : Int)) = true ∧
    errContains (ClaudeCliProvider.callApi "p" () ()
      (.exited 2 "" "E")).2
      (if "E" = "" then "(no stderr output)" else "E") = true ∧
    isFailureShape (CodexProvider.callApi "p" () ()
      (.exited 2 "" "E")).2 = true ∧
    errContains (CodexProvider.callApi "p" () ()
      (.exited 2 "" "E")).2 (toString (2 : Int)) = true ∧
    errContains (CodexProvider.callApi "p" () ()
      (.exited 2 "" "E")).2 "E" = true) :=
  ⟨by decide, C2_nonzero_exit_failure "p" "" "E" 2 (by decide) () () () ()⟩

/-- C3: for every invocation of any adapter variant, the resolved result
record has exactly one of the two shapes populated — either `output`
plus the `tokenUsage` record with `error` absent, or `error` with
`output` and `tokenUsage` absent — never both. -/
theorem C3_exclusive_result_shape {α β : Type} (prompt : String) (c : α) (o : β)
    (po₁ po₂ : ProcOutcome) (ao : ApiOutcome) :
    ((isSuccessShape (ClaudeCliProvider.callApi prompt c o po₁).2) ^^
      (isFailureShape (ClaudeCliProvider.callApi prompt c o po₁).2)) = true ∧
    ((isSuccessShape (CodexProvider.callApi prompt c o po₂).2) ^^
      (isFailureShape (CodexProvider.callApi prompt c o po₂).2)) = true ∧
    ((isSuccessShape (ClaudeCodeProvider.callApi prompt c o ao)) ^^
      (isFailureShape (ClaudeCodeProvider.callApi prompt c o ao))) = true := by
  refine ⟨?_, ?_, ?_⟩
  · rcases po₁ with ⟨code, out, err⟩ | m
    · by_cases hc : code = 0 <;>
        simp [ClaudeCliProvider.callApi, ClaudeCliProvider.executeClaude, hc,
          isSuccessShape, isFailureShape]
    · simp [ClaudeCliProvider.callApi, ClaudeCliProvider.executeClaude,
        isSuccessShape, isFailureShape]
  · rcases po₂ with ⟨code, out, err⟩ | m
    · by_cases hc : code = 0 <;>
        simp [CodexProvider.callApi, CodexProvider.executeCodex, hc,
          isSuccessShape, isFailureShape]
    · simp [CodexProvider.callApi, CodexProvider.executeCodex,
        isSuccessShape, isFailureShape]
  · rcases ao with r | m <;>
      simp [ClaudeCodeProvider.callApi, isSuccessShape, isFailureShape]

/-- C4: when the child process cannot be started at all, `callApi` (of
either CLI-backed variant) resolves to a failure result whose error
message contains the underlying spawn error's message. -/
theorem C4_spawn_error_failure {α β γ δ : Type} (prompt m : String)
    (c₁ : α) (o₁ : β) (c₂ : γ) (o₂ : δ) :
    isFailureShape (ClaudeCliProvider.callApi prompt c₁ o₁ (.spawnError m)).2 = true ∧
    errContains (ClaudeCliProvider.callApi prompt c₁ o₁ (.spawnError m)).2 m = true ∧
    isFailureShape (CodexProvider.callApi prompt c₂ o₂ (.spawnError m)).2 = true ∧
    errContains (CodexProvider.callApi prompt c₂ o₂ (.spawnError m)).2 m = true := by
  refine ⟨rfl, ?_, rfl, ?_⟩
  · show containsStr ("Claude CLI error: " ++ ("Failed to spawn claude: " ++ m))
      m = true
    exact containsStr_of_data _ _
      ("Claude CLI error: ".data ++ "Failed to spawn claude: ".data) []
      (by simp [String.data_append])
  · show containsStr ("Codex CLI error: " ++ ("Failed to spawn codex: " ++ m))
      m = true
    exact containsStr_of_data _ _
      ("Codex CLI error: ".data ++ "Failed to spawn codex: ".data) []
      (by simp [String.data_append])

/-- C5: for the HTTP-API variant, the success output is the `text`
fields of exactly the text-type blocks of the response body, in order,
joined by newline characters, non-text blocks contributing nothing. -/
theorem C5_text_extraction {α β : Type} (prompt : String) (c : α) (o : β)
    (r : MessagesResponse) :
    (ClaudeCodeProvider.callApi prompt c o (.success r)).output =
      some (String.intercalate "\n" (specTextSegments r.content)) := by
  simp [ClaudeCodeProvider.callApi, ClaudeCodeProvider.extractText,
    textOf_filter_eq_specTextSegments]

/-- C6: every successful invocation returns a usage record (counts are
naturals, hence non-negative) with `total = prompt + completion`; the
CLI variants return all zeros, and the HTTP variant returns
`total = input_tokens + output_tokens`, `prompt = input_tokens`,
`completion = output_tokens`. -/
theorem C6_usage_record {α β : Type} (prompt stdout stderr : String) (c : α)
    (o : β) (r : MessagesResponse) :
    (ClaudeCliProvider.callApi prompt c o
      (.exited 0 stdout stderr)).2.tokenUsage = some ⟨0, 0, 0⟩ ∧
    (CodexProvider.callApi prompt c o
      (.exited 0 stdout stderr)).2.tokenUsage = some ⟨0, 0, 0⟩ ∧
    (ClaudeCodeProvider.callApi prompt c o (.success r)).tokenUsage =
      some ⟨r.usage.input_tokens + r.usage.output_tokens,
            r.usage.input_tokens, r.usage.output_tokens⟩ ∧
    (Option.all (fun u => u.total == u.prompt + u.completion)
      (ClaudeCodeProvider.callApi prompt c o (.success r)).tokenUsage) = true ∧
    (Option.all (fun u => u.total == u.prompt + u.completion)
      (ClaudeCliProvider.callApi prompt c o
        (.exited 0 stdout stderr)).2.tokenUsage) = true ∧
    (Option.all (fun u => u.total == u.prompt + u.completion)
      (CodexProvider.callApi prompt c o
        (.exited 0 stdout stderr)).2.tokenUsage) = true := by
  refine ⟨rfl, rfl, rfl, ?_, rfl, rfl⟩
  simp [ClaudeCodeProvider.callApi, Option.all]

/-- C7: for every prompt, context, options and every outcome of the
underlying process or client library, `callApi` resolves to a
well-formed result — a success-shaped record or a failure-shaped record
carrying a message — for all three adapter variants. -/
theorem C7_always_resolves {α β : Type} (prompt : String) (c : α) (o : β)
    (po₁ po₂ : ProcOutcome) (ao : ApiOutcome) :
    (isSuccessShape (ClaudeCliProvider.callApi prompt c o po₁).2 ||
      isFailureShape (ClaudeCliProvider.callApi prompt c o po₁).2) = true ∧
    (isSuccessShape (CodexProvider.callApi prompt c o po₂).2 ||
      isFailureShape (CodexProvider.callApi prompt c o po₂).2) = true ∧
    (isSuccessShape (ClaudeCodeProvider.callApi prompt c o ao) ||
      isFailureShape (ClaudeCodeProvider.callApi prompt c o ao)) = true := by
  refine ⟨?_, ?_, ?_⟩
  · rcases po₁ with ⟨code, out, err⟩ | m
    · by_cases hc : code = 0 <;>
        simp [ClaudeCliProvider.callApi, ClaudeCliProvider.executeClaude, hc,
          isSuccessShape, isFailureShape]
    · simp [ClaudeCliProvider.callApi, ClaudeCliProvider.executeClaude,
        isSuccessShape, isFailureShape]
  · rcases po₂ with ⟨code, out, err⟩ | m
    · by_cases hc : code = 0 <;>
        simp [CodexProvider.callApi, CodexProvider.executeCodex, hc,
          isSuccessShape, isFailureShape]
    · simp [CodexProvider.callApi, CodexProvider.executeCodex,
        isSuccessShape, isFailureShape]
  · rcases ao with r | m <;>
      simp [ClaudeCodeProvider.callApi, isSuccessShape, isFailureShape]

/-- C8: every `callApi` call of a CLI-backed adapter emits exactly one
spawn effect — the fixed command with the prompt as argument (Claude
CLI) or written to stdin (Codex) — regardless of how the call ends. -/
theorem C8_exactly_one_spawn {α β : Type} (prompt : String) (c : α) (o : β)
    (po : ProcOutcome) :
    (ClaudeCliProvider.callApi prompt c o po).1 =
      [⟨"claude", ["-p", prompt], none⟩] ∧
    (ClaudeCliProvider.callApi prompt c o po).1.length = 1 ∧
    (CodexProvider.callApi prompt c o po).1 =
      [⟨"codex", ["exec", "-"], some prompt⟩] ∧
    (CodexProvider.callApi prompt c o po).1.length = 1 := by
  rcases po with ⟨code, out, err⟩ | m
  · by_cases hc : code = 0 <;>
      simp [ClaudeCliProvider.callApi, ClaudeCliProvider.executeClaude,
        CodexProvider.callApi, CodexProvider.executeCodex, hc]
  · simp [ClaudeCliProvider.callApi, ClaudeCliProvider.executeClaude,
      CodexProvider.callApi, CodexProvider.executeCodex]

/-- C9: the CLI-backed adapters never inspect `context` or `options` —
two calls agreeing on the prompt and the process outcome produce the
identical spawn effect and the identical result, whatever the context
and options arguments are. -/
theorem C9_context_options_ignored {α β γ δ : Type} (prompt : String)
    (c₁ : α) (o₁ : β) (c₂ : γ) (o₂ : δ) (po : ProcOutcome) :
    ClaudeCliProvider.callApi prompt c₁ o₁ po =
      ClaudeCliProvider.callApi prompt c₂ o₂ po ∧
    CodexProvider.callApi prompt c₁ o₁ po =
      CodexProvider.callApi prompt c₂ o₂ po :=
  ⟨rfl, rfl⟩

/-- C10: the HTTP-API variant returns the joined text blocks with no
whitespace trimming — witnessed by a body whose single text block
carries surrounding whitespace that survives into the output — while
the CLI variants always trim their stdout. -/
theorem C10_http_output_not_trimmed (r : MessagesResponse) (stdout : String) :
    (ClaudeCodeProvider.callApi "p" () () (.success r)).output =
      some (ClaudeCodeProvider.extractText r.content) ∧
    (ClaudeCodeProvider.callApi "p" () ()
      (.success ⟨[.text "  hi "], ⟨1, 2⟩⟩)).output = some "  hi " ∧
    (jsTrim "  hi " == "  hi ") = false ∧
    (ClaudeCliProvider.callApi "p" () () (.exited 0 stdout "")).2.output =
      some (jsTrim stdout) ∧
    (CodexProvider.callApi "p" () () (.exited 0 stdout "")).2.output =
      some (jsTrim stdout) := by
  refine ⟨rfl, ?_, ?_, rfl, rfl⟩
  · decide
  · decide
